import Mathlib

/-!
Verification of the cortex-k3s tiered router (orchestrator + model server).

The embedding translates, from the source:
- `k8s/router-mesh/images/orchestrator/orchestrator.py`: the `/route`
  cascade (`route_request`), the cache-key derivation (`sha256` of the raw
  message, hex digest truncated to 16 characters, with a `route:` prefixed
  tag), and the background cache write (`cache_result`).
- `k8s/router-mesh/images/model-server/model_server.py`: the `/classify`
  handler (`classify`), the route-label substring match and the
  logprob-derived confidence.

Conventions: Python floats are modelled as rationals (`ℚ`); external
effects (the Redis lookup, the two classifier HTTP calls) are oracles of
type `Except Unit _`, where `Except.error` stands for any raised
exception (network failure, malformed JSON, missing key).  Wall-clock
fields (`latency_ms`, `ttft_ms`) are omitted: they carry no routing
information.  Call-count instrumentation (`l1_calls`, `l2_calls`)
records where the code performs `http_client.post`.
-/

namespace SHA256

/-- Truncate to a 32-bit word (`% 2^32`). -/
def w32 (x : Nat) : Nat := x % 4294967296

/-- 32-bit right rotation. -/
def rotr (n x : Nat) : Nat := w32 ((x >>> n) ||| (x <<< (32 - n)))

/-- 32-bit bitwise complement. -/
def not32 (x : Nat) : Nat := 4294967295 - x % 4294967296

/-- The 64 SHA-256 round constants. -/
def K : List Nat :=
  [1116352408, 1899447441, 3049323471, 3921009573, 961987163, 1508970993,
   2453635748, 2870763221, 3624381080, 310598401, 607225278, 1426881987,
   1925078388, 2162078206, 2614888103, 3248222580, 3835390401, 4022224774,
   264347078, 604807628, 770255983, 1249150122, 1555081692, 1996064986,
   2554220882, 2821834349, 2952996808, 3210313671, 3336571891, 3584528711,
   113926993, 338241895, 666307205, 773529912, 1294757372, 1396182291,
   1695183700, 1986661051, 2177026350, 2456956037, 2730485921, 2820302411,
   3259730800, 3345764771, 3516065817, 3600352804, 4094571909, 275423344,
   430227734, 506948616, 659060556, 883997877, 958139571, 1322822218,
   1537002063, 1747873779, 1955562222, 2024104815, 2227730452, 2361852424,
   2428436474, 2756734187, 3204031479, 3329325298]

/-- The SHA-256 initial hash state. -/
def Hinit : List Nat :=
  [1779033703, 3144134277, 1013904242, 2773480762, 1359893119, 2600822924,
   528734635, 1541459225]

/-- Big-endian 8-byte encoding of a (64-bit) natural. -/
def be8 (n : Nat) : List Nat :=
  [(n >>> 56) % 256, (n >>> 48) % 256, (n >>> 40) % 256, (n >>> 32) % 256,
   (n >>> 24) % 256, (n >>> 16) % 256, (n >>> 8) % 256, n % 256]

/-- SHA-256 padding: `0x80`, zeros to 56 mod 64, then the bit length. -/
def pad (msg : List Nat) : List Nat :=
  let len := msg.length
  let zeros := (119 - len % 64) % 64
  msg ++ [128] ++ List.replicate zeros 0 ++ be8 (len * 8)

/-- Group bytes into big-endian 32-bit words. -/
def toWords : List Nat → List Nat
  | a :: b :: c :: d :: rest =>
      (a * 16777216 + b * 65536 + c * 256 + d) :: toWords rest
  | _ => []

/-- Extend the 16 message-schedule words to 64 (fuelled recursion). -/
def extendW : Nat → List Nat → List Nat
  | 0, ws => ws
  | n + 1, ws =>
      let i := ws.length
      let w15 := ws.getD (i - 15) 0
      let w2 := ws.getD (i - 2) 0
      let w16 := ws.getD (i - 16) 0
      let w7 := ws.getD (i - 7) 0
      let s0 := (rotr 7 w15) ^^^ (rotr 18 w15) ^^^ (w15 >>> 3)
      let s1 := (rotr 17 w2) ^^^ (rotr 19 w2) ^^^ (w2 >>> 10)
      extendW n (ws ++ [(w16 + s0 + w7 + s1) % 4294967296])

/-- The eight working registers of the compression loop. -/
structure Regs where
  a : Nat
  b : Nat
  c : Nat
  d : Nat
  e : Nat
  f : Nat
  g : Nat
  h : Nat

/-- One round of the SHA-256 compression function. -/
def compressStep (st : Regs) (kw : Nat × Nat) : Regs :=
  let S1 := (rotr 6 st.e) ^^^ (rotr 11 st.e) ^^^ (rotr 25 st.e)
  let ch := (st.e &&& st.f) ^^^ ((not32 st.e) &&& st.g)
  let temp1 := (st.h + S1 + ch + kw.1 + kw.2) % 4294967296
  let S0 := (rotr 2 st.a) ^^^ (rotr 13 st.a) ^^^ (rotr 22 st.a)
  let maj := (st.a &&& st.b) ^^^ (st.a &&& st.c) ^^^ (st.b &&& st.c)
  let temp2 := (S0 + maj) % 4294967296
  ⟨(temp1 + temp2) % 4294967296, st.a, st.b, st.c,
   (st.d + temp1) % 4294967296, st.e, st.f, st.g⟩

/-- Compress one 64-byte block into the running hash state. -/
def compressBlock (hs : List Nat) (block : List Nat) : List Nat :=
  let ws := extendW 48 (toWords block)
  let init : Regs :=
    ⟨hs.getD 0 0, hs.getD 1 0, hs.getD 2 0, hs.getD 3 0,
     hs.getD 4 0, hs.getD 5 0, hs.getD 6 0, hs.getD 7 0⟩
  let fin := (K.zip ws).foldl compressStep init
  [(hs.getD 0 0 + fin.a) % 4294967296, (hs.getD 1 0 + fin.b) % 4294967296,
   (hs.getD 2 0 + fin.c) % 4294967296, (hs.getD 3 0 + fin.d) % 4294967296,
   (hs.getD 4 0 + fin.e) % 4294967296, (hs.getD 5 0 + fin.f) % 4294967296,
   (hs.getD 6 0 + fin.g) % 4294967296, (hs.getD 7 0 + fin.h) % 4294967296]

/-- Split a padded message into 64-byte blocks (fuelled recursion). -/
def blocksF : Nat → List Nat → List (List Nat)
  | 0, _ => []
  | _, [] => []
  | fuel + 1, l => l.take 64 :: blocksF fuel (l.drop 64)

/-- Split a padded message into 64-byte blocks. -/
def blocks (l : List Nat) : List (List Nat) := blocksF (l.length + 1) l

/-- Lower-case hex digit for a value below 16 (`0`-`9` then `a`-`f`). -/
def hexDigit (n : Nat) : Char :=
  if n < 10 then Char.ofNat (48 + n) else Char.ofNat (87 + n)

/-- A 32-bit word as 8 lower-case hex characters. -/
def wordHex (w : Nat) : List Char :=
  [hexDigit ((w >>> 28) % 16), hexDigit ((w >>> 24) % 16),
   hexDigit ((w >>> 20) % 16), hexDigit ((w >>> 16) % 16),
   hexDigit ((w >>> 12) % 16), hexDigit ((w >>> 8) % 16),
   hexDigit ((w >>> 4) % 16), hexDigit (w % 16)]

/-- SHA-256 of a byte list, as the 64-character lower-case hex digest. -/
def sha256hexChars (msg : List Nat) : List Char :=
  (((blocks (pad msg)).foldl compressBlock Hinit).map wordHex).flatten

/-- UTF-8 encoding of one Unicode code point. -/
def utf8Char (c : Nat) : List Nat :=
  if c < 128 then [c]
  else if c < 2048 then [192 + c / 64, 128 + c % 64]
  else if c < 65536 then
    [224 + c / 4096, 128 + (c / 64) % 64, 128 + c % 64]
  else
    [240 + c / 262144, 128 + (c / 4096) % 64, 128 + (c / 64) % 64,
     128 + c % 64]

/-- UTF-8 byte encoding of a string (Python `str.encode()`). -/
def utf8Bytes (s : String) : List Nat :=
  (s.data.map (fun ch => utf8Char ch.toNat)).flatten

end SHA256

/-- Sanity check of the SHA-256 embedding against the published test
vector for the empty message. -/
theorem sha256_empty_vector :
    String.mk (SHA256.sha256hexChars []) =
      "e3b0c44298fc1c149afbf4c8996fb92427ae41e4649b934ca495991b7852b855" := by
  decide

/-- Sanity check of the SHA-256 embedding against the published test
vector for the ASCII message `abc`. -/
theorem sha256_abc_vector :
    String.mk (SHA256.sha256hexChars (SHA256.utf8Bytes "abc")) =
      "ba7816bf8f01cfea414140de5dae2223b00361a396177a9cb410ff61f20015ad" := by
  decide

namespace ModelServer

/-- The closed route-label set of the model server
(`model_server.py: ROUTES`). -/
def ROUTES : List String :=
  ["unifi", "proxmox", "grafana", "elastic", "k3s", "netdata", "cortex"]

/-- `leadsWith p l` : `p` is a leading segment of `l` (character lists). -/
def leadsWith : List Char → List Char → Bool
  | [], _ => true
  | _ :: _, [] => false
  | a :: as, b :: bs => a == b && leadsWith as bs

/-- `containsSub p l` : Python's substring test `p in l`. -/
def containsSub (p : List Char) : List Char → Bool
  | [] => p == []
  | c :: cs => leadsWith p (c :: cs) || containsSub p cs

/-- ASCII whitespace, as stripped by Python's `str.strip()`. -/
def isPySpace (c : Char) : Bool :=
  c == ' ' || c == '\t' || c == '\n' || c == '\r' ||
  c == (Char.ofNat 11) || c == (Char.ofNat 12)

/-- Python `str.strip()` on a character list. -/
def strip (l : List Char) : List Char :=
  ((l.dropWhile isPySpace).reverse.dropWhile isPySpace).reverse

/-- Python `raw.strip().lower()` (ASCII case fold; the route labels and
the model's stop-constrained emissions are ASCII). -/
def normalizeRaw (s : String) : List Char :=
  (strip s.data).map Char.toLower

/-- The first route label occurring as a substring of the normalized
model emission; `cortex` when none does (`model_server.py:76-80`). -/
def matchRoute (raw : List Char) : String :=
  ((ROUTES.find? (fun r => containsSub r.data raw)).getD "cortex")

/-- One llama.cpp completion choice: the emitted text and the
`token_logprobs` list (an entry is `none` for Python `None`). -/
structure LlamaChoice where
  text : String
  token_logprobs : List (Option ℚ)

/-- The `/classify` response body. -/
structure ClassifyResponse where
  route : String
  confidence : ℚ
  deriving DecidableEq

/-- `model_server.py: classify`.  `expFn` models `math.exp` (the only
real-valued primitive); `modelLoaded` is `llm is not None`; `infer` is
the llama.cpp call, `Except.error` standing for a raised exception. -/
def classify (expFn : ℚ → ℚ) (modelLoaded : Bool)
    (infer : Except Unit LlamaChoice) : ClassifyResponse :=
  if modelLoaded = false then ⟨"cortex", 0⟩
  else
    match infer with
    | .error _ => ⟨"cortex", 0⟩
    | .ok out =>
      let raw_route := normalizeRaw out.text
      let route := matchRoute raw_route
      let confidence : ℚ :=
        match out.token_logprobs with
        | some lp :: _ => expFn lp
        | _ => 1 / 2
      ⟨route, min confidence 1⟩

end ModelServer

namespace Orchestrator

/-- `orchestrator.py: CORTEX_URL` (default). -/
def CORTEX_URL : String := "http://relay-core.cortex.svc:8000"

/-- `orchestrator.py: ROUTES` — the route table, label to backend URL
(default URLs). -/
def ROUTES : List (String × String) :=
  [("unifi", "http://unifi-mcp.mcp-servers.svc:8000"),
   ("proxmox", "http://proxmox-mcp.mcp-servers.svc:8000"),
   ("grafana", "http://grafana-mcp.mcp-servers.svc:8000"),
   ("elastic", "http://elastic-mcp.mcp-servers.svc:8000"),
   ("k3s", "http://k3s-mcp.mcp-servers.svc:8000"),
   ("netdata", "http://netdata-mcp.mcp-servers.svc:8000"),
   ("cortex", CORTEX_URL)]

/-- The labels of the route table. -/
def routeLabels : List String := ROUTES.map Prod.fst

/-- `ROUTES.get(label, CORTEX_URL)`. -/
def routesGet (r : String) : String :=
  ((ROUTES.find? (fun p => p.1 == r)).map Prod.snd).getD CORTEX_URL

/-- `orchestrator.py:98`: the cache key — `route:` plus the first 16 hex
characters of the SHA-256 of the raw (UTF-8 encoded) message. -/
def cacheKey (message : String) : String :=
  "route:" ++ String.mk ((SHA256.sha256hexChars (SHA256.utf8Bytes message)).take 16)

/-- A classifier response as consumed by the orchestrator
(`l1_data` / `l2_data`). -/
structure ClassifyData where
  route : String
  confidence : ℚ
  deriving DecidableEq

/-- The serialized decision stored in Redis by `cache_result`: the
response minus `cached`, `latency_ms` and `ttft_ms`. -/
structure CacheValue where
  route : String
  route_url : String
  confidence : ℚ
  layer : String
  deriving DecidableEq

/-- The `POST /route` request body (`RouteRequest`): a message and an
optional, otherwise uninterpreted, context object. -/
structure RouteRequest where
  message : String
  context : Option (List (String × String)) := none

/-- The `POST /route` response (`RouteResponse`), wall-clock fields
omitted. -/
structure RouteResponse where
  route : String
  route_url : String
  confidence : ℚ
  layer : String
  cached : Bool
  deriving DecidableEq

/-- The external world for one request: the Redis `get` on the cache
key, and the L1 and L2 `POST /classify` calls.  `Except.error` stands
for a raised exception in the corresponding `try` block (network
failure, timeout, malformed or key-missing JSON). -/
structure Oracle where
  cacheLookup : Except Unit (Option CacheValue)
  l1 : Except Unit ClassifyData
  l2 : Except Unit ClassifyData

/-- The observable outcome of `route_request`: the response, the cache
write scheduled as a background task (key and stored value; `none`
when no write is scheduled), and how many times each classifier was
called. -/
structure RouteOutcome where
  resp : RouteResponse
  write : Option (String × CacheValue)
  l1_calls : Nat
  l2_calls : Nat
  deriving DecidableEq

/-- `cache_result` payload: `model_dump()` minus `cached`, `latency_ms`
and `ttft_ms` (`orchestrator.py:185-195`). -/
def toCacheValue (r : RouteResponse) : CacheValue :=
  ⟨r.route, r.route_url, r.confidence, r.layer⟩

/-- The escalation response (`orchestrator.py:167-179`). -/
def escalatedResp (conf : ℚ) : RouteResponse :=
  ⟨"cortex", CORTEX_URL, conf, "escalated", false⟩

/-- The L2 (decode) phase and escalation (`orchestrator.py:146-179`):
reached when the cache missed or failed and L1 did not accept.  On an
L2 exception the handler sets `l2_data = {"confidence": 0.0}` and
escalation reads confidence 0. -/
def l2Phase (T2 : ℚ) (o : Oracle) (cache_key : String) : RouteOutcome :=
  match o.l2 with
  | .ok l2_data =>
    if T2 ≤ l2_data.confidence then
      let result : RouteResponse :=
        ⟨l2_data.route, routesGet l2_data.route, l2_data.confidence, "L2", false⟩
      ⟨result, some (cache_key, toCacheValue result), 1, 1⟩
    else
      ⟨escalatedResp l2_data.confidence, none, 1, 1⟩
  | .error _ => ⟨escalatedResp 0, none, 1, 1⟩

/-- `orchestrator.py: route_request`.  A cache hit returns the stored
decision with `cached = true`; a cache miss — a raised cache-read
exception is caught and falls through identically — runs L1, accepts at
confidence ≥ T1 with a scheduled cache write, and otherwise (including
an L1 exception) proceeds to `l2Phase`. -/
def route_request (T1 T2 : ℚ) (o : Oracle) (req : RouteRequest) : RouteOutcome :=
  let cache_key := cacheKey req.message
  match o.cacheLookup with
  | .ok (some data) =>
    ⟨⟨data.route, data.route_url, data.confidence, data.layer, true⟩,
     none, 0, 0⟩
  | .ok none =>
    match o.l1 with
    | .ok l1_data =>
      if T1 ≤ l1_data.confidence then
        let result : RouteResponse :=
          ⟨l1_data.route, routesGet l1_data.route, l1_data.confidence, "L1", false⟩
        ⟨result, some (cache_key, toCacheValue result), 1, 0⟩
      else l2Phase T2 o cache_key
    | .error _ => l2Phase T2 o cache_key
  | .error _ =>
    match o.l1 with
    | .ok l1_data =>
      if T1 ≤ l1_data.confidence then
        let result : RouteResponse :=
          ⟨l1_data.route, routesGet l1_data.route, l1_data.confidence, "L1", false⟩
        ⟨result, some (cache_key, toCacheValue result), 1, 0⟩
      else l2Phase T2 o cache_key
    | .error _ => l2Phase T2 o cache_key

/-- Applying a completed cache write (`redis setex`) to a cache state; a
write failure is absorbed and leaves the cache unchanged. -/
def applyWrite (fault : Bool) (st : String → Option CacheValue)
    (w : String × CacheValue) : String → Option CacheValue :=
  if fault then st else fun k => if k == w.1 then some w.2 else st k

end Orchestrator

/-! ## Shared lemmas -/

namespace ModelServer

/-- The label chosen by the substring match is always one of the known
route labels. -/
theorem matchRoute_mem (raw : List Char) : matchRoute raw ∈ ROUTES := by
  unfold matchRoute
  cases hfind : ROUTES.find? (fun r => containsSub r.data raw) with
  | none => simp [List.getD]; decide
  | some r =>
    simpa using List.mem_of_find?_eq_some hfind

/-- The route emitted by `classify` is always one of the known labels. -/
theorem classify_route_mem (expFn : ℚ → ℚ) (modelLoaded : Bool)
    (infer : Except Unit LlamaChoice) :
    (classify expFn modelLoaded infer).route ∈ ROUTES := by
  cases modelLoaded with
  | false => show "cortex" ∈ ROUTES; decide
  | true =>
    cases infer with
    | error e => show "cortex" ∈ ROUTES; decide
    | ok out => exact matchRoute_mem (normalizeRaw out.text)

end ModelServer

namespace Orchestrator

/-- The `cortex` fallback label is in the route table. -/
theorem cortex_mem_routeLabels : "cortex" ∈ routeLabels := by decide

/-- Any cache write scheduled by `route_request` carries the cache key
of the request message and the stripped accepted response. -/
theorem write_characterization (T1 T2 : ℚ) (o : Oracle) (req : RouteRequest)
    (k : String) (v : CacheValue)
    (h : (route_request T1 T2 o req).write = some (k, v)) :
    k = cacheKey req.message ∧
    v = toCacheValue (route_request T1 T2 o req).resp := by
  obtain ⟨cl, l1, l2⟩ := o
  cases cl with
  | ok ov =>
    cases ov with
    | some w => simp [route_request] at h
    | none =>
      cases l1 with
      | ok l1d =>
        by_cases h1 : T1 ≤ l1d.confidence
        · simp [route_request, h1] at h ⊢
          exact ⟨h.1.symm, h.2.symm⟩
        · simp [route_request, h1, l2Phase] at h ⊢
          cases l2 with
          | ok l2d =>
            by_cases h2 : T2 ≤ l2d.confidence
            · simp [l2Phase, h2] at h ⊢
              exact ⟨h.1.symm, h.2.symm⟩
            · simp [l2Phase, h2] at h
          | error e => simp [l2Phase] at h
      | error e =>
        simp [route_request] at h ⊢
        cases l2 with
        | ok l2d =>
          by_cases h2 : T2 ≤ l2d.confidence
          · simp [l2Phase, h2] at h ⊢
            exact ⟨h.1.symm, h.2.symm⟩
          · simp [l2Phase, h2] at h
        | error e2 => simp [l2Phase] at h
  | error e =>
    cases l1 with
    | ok l1d =>
      by_cases h1 : T1 ≤ l1d.confidence
      · simp [route_request, h1] at h ⊢
        exact ⟨h.1.symm, h.2.symm⟩
      · simp [route_request, h1, l2Phase] at h ⊢
        cases l2 with
        | ok l2d =>
          by_cases h2 : T2 ≤ l2d.confidence
          · simp [l2Phase, h2] at h ⊢
            exact ⟨h.1.symm, h.2.symm⟩
          · simp [l2Phase, h2] at h
        | error e2 => simp [l2Phase] at h
    | error e1 =>
      simp [route_request] at h ⊢
      cases l2 with
      | ok l2d =>
        by_cases h2 : T2 ≤ l2d.confidence
        · simp [l2Phase, h2] at h ⊢
          exact ⟨h.1.symm, h.2.symm⟩
        · simp [l2Phase, h2] at h
      | error e2 => simp [l2Phase] at h

end Orchestrator

namespace Orchestrator

/-- C1: for every request that misses the cache (or whose cache lookup
failed), if the L1 classifier call succeeds and its confidence clears
the T1 threshold, the L2 classifier is never invoked: the L2 call count
of the outcome is zero. -/
theorem c1_l1_confident_skips_l2 (T1 T2 : ℚ) (o : Oracle) (req : RouteRequest)
    (d : ClassifyData)
    (hmiss : ∀ v, o.cacheLookup ≠ .ok (some v))
    (hl1 : o.l1 = .ok d) (hconf : T1 ≤ d.confidence) :
    (route_request T1 T2 o req).l2_calls = 0 := by
  obtain ⟨cl, l1, l2⟩ := o
  simp only at hl1
  subst hl1
  cases cl with
  | ok ov =>
    cases ov with
    | some v => exact absurd rfl (hmiss v)
    | none => simp [route_request, hconf]
  | error e => simp [route_request, hconf]

/-- Witness for C1 at the default thresholds: cache miss, L1 answers
`k3s` with confidence 0.9 ≥ 0.85. -/
theorem c1_witness :
    (route_request 0.85 0.75
      ⟨Except.ok none, Except.ok ⟨"k3s", 0.9⟩, Except.error ()⟩
      ⟨"list my pods", none⟩).l2_calls = 0 := by
  apply c1_l1_confident_skips_l2 0.85 0.75 _ _ ⟨"k3s", 0.9⟩
  · intro v h
    exact Option.noConfusion (Except.ok.inj h)
  · rfl
  · norm_num

/-- C3: a cache write is scheduled only for a decision accepted at L1
with confidence ≥ T1 or at L2 with confidence ≥ T2, and the stored value
is that decision; an escalated outcome never schedules a cache write. -/
theorem c3_cache_write_discipline (T1 T2 : ℚ) (o : Oracle) (req : RouteRequest) :
    (∀ k v, (route_request T1 T2 o req).write = some (k, v) →
      (((route_request T1 T2 o req).resp.layer = "L1" ∧
          T1 ≤ (route_request T1 T2 o req).resp.confidence) ∨
        ((route_request T1 T2 o req).resp.layer = "L2" ∧
          T2 ≤ (route_request T1 T2 o req).resp.confidence)) ∧
      v = toCacheValue (route_request T1 T2 o req).resp) ∧
    ((route_request T1 T2 o req).resp.layer = "escalated" →
      (route_request T1 T2 o req).write = none) := by
  obtain ⟨cl, l1, l2⟩ := o
  cases cl with
  | ok ov =>
    cases ov with
    | some v => simp [route_request]
    | none =>
      cases l1 with
      | ok l1d =>
        by_cases h1 : T1 ≤ l1d.confidence
        · simp [route_request, h1]
        · cases l2 with
          | ok l2d =>
            by_cases h2 : T2 ≤ l2d.confidence
            · simp [route_request, h1, l2Phase, h2]
            · simp [route_request, h1, l2Phase, h2, escalatedResp]
          | error e => simp [route_request, h1, l2Phase, escalatedResp]
      | error e =>
        cases l2 with
        | ok l2d =>
          by_cases h2 : T2 ≤ l2d.confidence
          · simp [route_request, l2Phase, h2]
          · simp [route_request, l2Phase, h2, escalatedResp]
        | error e2 => simp [route_request, l2Phase, escalatedResp]
  | error e =>
    cases l1 with
    | ok l1d =>
      by_cases h1 : T1 ≤ l1d.confidence
      · simp [route_request, h1]
      · cases l2 with
        | ok l2d =>
          by_cases h2 : T2 ≤ l2d.confidence
          · simp [route_request, h1, l2Phase, h2]
          · simp [route_request, h1, l2Phase, h2, escalatedResp]
        | error e2 => simp [route_request, h1, l2Phase, escalatedResp]
    | error e1 =>
      cases l2 with
      | ok l2d =>
        by_cases h2 : T2 ≤ l2d.confidence
        · simp [route_request, l2Phase, h2]
        · simp [route_request, l2Phase, h2, escalatedResp]
      | error e2 => simp [route_request, l2Phase, escalatedResp]

/-- Witness for C3: an L2-accepted decision (L1 low, L2 confident)
whose scheduled write stores the accepted response. -/
theorem c3_witness :
    (((route_request 0.85 0.75
        ⟨Except.ok none, Except.ok ⟨"k3s", 0.2⟩, Except.ok ⟨"grafana", 0.8⟩⟩
        ⟨"show dashboards", none⟩).resp.layer = "L1" ∧
        (0.85 : ℚ) ≤ (route_request 0.85 0.75
        ⟨Except.ok none, Except.ok ⟨"k3s", 0.2⟩, Except.ok ⟨"grafana", 0.8⟩⟩
        ⟨"show dashboards", none⟩).resp.confidence) ∨
      ((route_request 0.85 0.75
        ⟨Except.ok none, Except.ok ⟨"k3s", 0.2⟩, Except.ok ⟨"grafana", 0.8⟩⟩
        ⟨"show dashboards", none⟩).resp.layer = "L2" ∧
        (0.75 : ℚ) ≤ (route_request 0.85 0.75
        ⟨Except.ok none, Except.ok ⟨"k3s", 0.2⟩, Except.ok ⟨"grafana", 0.8⟩⟩
        ⟨"show dashboards", none⟩).resp.confidence)) ∧
    toCacheValue ⟨"grafana", "http://grafana-mcp.mcp-servers.svc:8000", 0.8, "L2", false⟩ =
      toCacheValue (route_request 0.85 0.75
        ⟨Except.ok none, Except.ok ⟨"k3s", 0.2⟩, Except.ok ⟨"grafana", 0.8⟩⟩
        ⟨"show dashboards", none⟩).resp := by
  apply (c3_cache_write_discipline 0.85 0.75
      ⟨Except.ok none, Except.ok ⟨"k3s", 0.2⟩, Except.ok ⟨"grafana", 0.8⟩⟩
      ⟨"show dashboards", none⟩).1
    (cacheKey "show dashboards")
  norm_num [route_request, l2Phase, routesGet, ROUTES, toCacheValue]
  decide

/-- C4: on a cache miss, when L1 is below T1 (or failed) and L2 is
below T2 (or failed), the response is the escalated fallback — layer
`escalated`, route `cortex` — and no cache write is scheduled. -/
theorem c4_double_low_escalates (T1 T2 : ℚ) (o : Oracle) (req : RouteRequest)
    (hmiss : ∀ v, o.cacheLookup ≠ .ok (some v))
    (hl1 : ∀ d, o.l1 = .ok d → d.confidence < T1)
    (hl2 : ∀ d, o.l2 = .ok d → d.confidence < T2) :
    (route_request T1 T2 o req).resp.layer = "escalated" ∧
    (route_request T1 T2 o req).resp.route = "cortex" ∧
    (route_request T1 T2 o req).write = none := by
  obtain ⟨cl, l1, l2⟩ := o
  simp only at hl1 hl2
  have hL2 : (l2Phase T2 ⟨cl, l1, l2⟩ (cacheKey req.message)).resp.layer = "escalated" ∧
      (l2Phase T2 ⟨cl, l1, l2⟩ (cacheKey req.message)).resp.route = "cortex" ∧
      (l2Phase T2 ⟨cl, l1, l2⟩ (cacheKey req.message)).write = none := by
    cases l2 with
    | ok l2d =>
      have := hl2 l2d rfl
      simp [l2Phase, not_le.mpr this, escalatedResp]
    | error e => simp [l2Phase, escalatedResp]
  cases cl with
  | ok ov =>
    cases ov with
    | some v => exact absurd rfl (hmiss v)
    | none =>
      cases l1 with
      | ok l1d =>
        have := hl1 l1d rfl
        simpa [route_request, not_le.mpr this] using hL2
      | error e => simpa [route_request] using hL2
  | error e =>
    cases l1 with
    | ok l1d =>
      have := hl1 l1d rfl
      simpa [route_request, not_le.mpr this] using hL2
    | error e1 => simpa [route_request] using hL2

/-- Witness for C4: both classifiers answer below threshold. -/
theorem c4_witness :
    (route_request 0.85 0.75
      ⟨Except.ok none, Except.ok ⟨"unifi", 0.4⟩, Except.ok ⟨"unifi", 0.55⟩⟩
      ⟨"coordinate a migration", none⟩).resp.layer = "escalated" ∧
    (route_request 0.85 0.75
      ⟨Except.ok none, Except.ok ⟨"unifi", 0.4⟩, Except.ok ⟨"unifi", 0.55⟩⟩
      ⟨"coordinate a migration", none⟩).resp.route = "cortex" ∧
    (route_request 0.85 0.75
      ⟨Except.ok none, Except.ok ⟨"unifi", 0.4⟩, Except.ok ⟨"unifi", 0.55⟩⟩
      ⟨"coordinate a migration", none⟩).write = none := by
  apply c4_double_low_escalates
  · intro v h
    exact Option.noConfusion (Except.ok.inj h)
  · intro d h
    cases Except.ok.inj h
    norm_num
  · intro d h
    cases Except.ok.inj h
    norm_num

end Orchestrator

namespace Orchestrator

/-- Route membership for the L2/escalation phase: with an L2 result
whose label is in the table, every outcome of `l2Phase` carries a route
from the table, and so does any value it schedules for caching. -/
theorem l2Phase_route_mem (T2 : ℚ) (o : Oracle) (ck : String)
    (hl2 : ∀ d, o.l2 = .ok d → d.route ∈ routeLabels) :
    (l2Phase T2 o ck).resp.route ∈ routeLabels ∧
    (∀ k v, (l2Phase T2 o ck).write = some (k, v) → v.route ∈ routeLabels) := by
  obtain ⟨cl, l1, l2⟩ := o
  simp only at hl2
  cases l2 with
  | ok l2d =>
    have hmem := hl2 l2d rfl
    by_cases h2 : T2 ≤ l2d.confidence
    · constructor
      · simpa [l2Phase, h2] using hmem
      · intro k v hw
        simp [l2Phase, h2, toCacheValue] at hw
        rw [← hw.2]
        simpa using hmem
    · constructor
      · simpa [l2Phase, h2, escalatedResp] using cortex_mem_routeLabels
      · intro k v hw
        simp [l2Phase, h2] at hw
  | error e =>
    constructor
    · simpa [l2Phase, escalatedResp] using cortex_mem_routeLabels
    · intro k v hw
      simp [l2Phase] at hw

/-- C2: the model server's label set is exactly the orchestrator's
route table (so every classifier answer is a table label), and, for
every request with a non-empty message whose cache entry (if hit) and
classifier answers carry table labels, the decision's route is a label
of the route table and is non-empty — and any value scheduled for
caching again carries a table label. -/
theorem c2_route_in_table :
    ModelServer.ROUTES = routeLabels ∧
    (∀ (expFn : ℚ → ℚ) (loaded : Bool) (infer : Except Unit ModelServer.LlamaChoice),
      (ModelServer.classify expFn loaded infer).route ∈ routeLabels) ∧
    (∀ (T1 T2 : ℚ) (o : Oracle) (req : RouteRequest),
      req.message ≠ "" →
      (∀ v, o.cacheLookup = .ok (some v) → v.route ∈ routeLabels) →
      (∀ d, o.l1 = .ok d → d.route ∈ routeLabels) →
      (∀ d, o.l2 = .ok d → d.route ∈ routeLabels) →
      (route_request T1 T2 o req).resp.route ∈ routeLabels ∧
      (route_request T1 T2 o req).resp.route ≠ "" ∧
      (∀ k v, (route_request T1 T2 o req).write = some (k, v) →
        v.route ∈ routeLabels)) := by
  have hlab : ModelServer.ROUTES = routeLabels := by decide
  have hne : ∀ r ∈ routeLabels, r ≠ "" := by decide
  refine ⟨hlab, ?_, ?_⟩
  · intro expFn loaded infer
    exact hlab ▸ ModelServer.classify_route_mem expFn loaded infer
  · intro T1 T2 o req hmsg hc hl1 hl2
    have main : (route_request T1 T2 o req).resp.route ∈ routeLabels ∧
        (∀ k v, (route_request T1 T2 o req).write = some (k, v) →
          v.route ∈ routeLabels) := by
      obtain ⟨cl, l1, l2⟩ := o
      simp only at hc hl1 hl2
      cases cl with
      | ok ov =>
        cases ov with
        | some v =>
          constructor
          · simpa [route_request] using hc v rfl
          · intro k v2 hw
            simp [route_request] at hw
        | none =>
          cases l1 with
          | ok l1d =>
            have hmem := hl1 l1d rfl
            by_cases h1 : T1 ≤ l1d.confidence
            · constructor
              · simpa [route_request, h1] using hmem
              · intro k v hw
                simp [route_request, h1, toCacheValue] at hw
                rw [← hw.2]
                simpa using hmem
            · have := l2Phase_route_mem T2 ⟨.ok none, .ok l1d, l2⟩
                (cacheKey req.message) hl2
              simpa [route_request, h1] using this
          | error e =>
            have := l2Phase_route_mem T2 ⟨.ok none, .error e, l2⟩
              (cacheKey req.message) hl2
            simpa [route_request] using this
      | error e =>
        cases l1 with
        | ok l1d =>
          have hmem := hl1 l1d rfl
          by_cases h1 : T1 ≤ l1d.confidence
          · constructor
            · simpa [route_request, h1] using hmem
            · intro k v hw
              simp [route_request, h1, toCacheValue] at hw
              rw [← hw.2]
              simpa using hmem
          · have := l2Phase_route_mem T2 ⟨.error e, .ok l1d, l2⟩
              (cacheKey req.message) hl2
            simpa [route_request, h1] using this
        | error e1 =>
          have := l2Phase_route_mem T2 ⟨.error e, .error e1, l2⟩
            (cacheKey req.message) hl2
          simpa [route_request] using this
    exact ⟨main.1, hne _ main.1, main.2⟩

/-- Witness for C2: a cache miss resolved at L1 with label `netdata`
lands on a route-table label. -/
theorem c2_witness :
    (route_request 0.85 0.75
      ⟨Except.ok none, Except.ok ⟨"netdata", 0.95⟩, Except.error ()⟩
      ⟨"cpu usage", none⟩).resp.route ∈ routeLabels := by
  refine (c2_route_in_table.2.2 0.85 0.75
    ⟨Except.ok none, Except.ok ⟨"netdata", 0.95⟩, Except.error ()⟩
    ⟨"cpu usage", none⟩ (by decide) ?_ ?_ ?_).1
  · intro v h
    exact Option.noConfusion (Except.ok.inj h)
  · intro d h
    cases Except.ok.inj h
    decide
  · intro d h
    exact Except.noConfusion h

end Orchestrator

namespace Orchestrator

/-- C5: failures are absorbed, for positive thresholds — a cache-read
failure behaves exactly as a miss; an L1 call failure behaves exactly
as an L1 answer with confidence 0 (any label); an L2 call failure
behaves exactly as an L2 answer with confidence 0; and even with every
dependency failing the request still resolves to the well-formed
escalated fallback decision, never an error. -/
theorem c5_fault_absorption (T1 T2 : ℚ) (req : RouteRequest)
    (cv : Except Unit (Option CacheValue))
    (l1v l2v : Except Unit ClassifyData) (r1 r2 : String)
    (hT1 : 0 < T1) (hT2 : 0 < T2) :
    (route_request T1 T2 ⟨.error (), l1v, l2v⟩ req =
      route_request T1 T2 ⟨.ok none, l1v, l2v⟩ req) ∧
    (route_request T1 T2 ⟨cv, .error (), l2v⟩ req =
      route_request T1 T2 ⟨cv, .ok ⟨r1, 0⟩, l2v⟩ req) ∧
    (route_request T1 T2 ⟨cv, l1v, .error ()⟩ req =
      route_request T1 T2 ⟨cv, l1v, .ok ⟨r2, 0⟩⟩ req) ∧
    (route_request T1 T2 ⟨.error (), .error (), .error ()⟩ req =
      ⟨escalatedResp 0, none, 1, 1⟩) := by
  have hnT1 : ¬ T1 ≤ 0 := not_le.mpr hT1
  have hnT2 : ¬ T2 ≤ 0 := not_le.mpr hT2
  refine ⟨?_, ?_, ?_, rfl⟩
  · cases l1v <;> rfl
  · cases cv with
    | ok ov =>
      cases ov with
      | some v => rfl
      | none => cases l2v <;> simp [route_request, hnT1, l2Phase]
    | error e => cases l2v <;> simp [route_request, hnT1, l2Phase]
  · cases cv with
    | ok ov =>
      cases ov with
      | some v => rfl
      | none =>
        cases l1v with
        | ok l1d =>
          by_cases h1 : T1 ≤ l1d.confidence
          · simp [route_request, h1]
          · simp [route_request, h1, l2Phase, hnT2]
        | error e => simp [route_request, l2Phase, hnT2]
    | error e =>
      cases l1v with
      | ok l1d =>
        by_cases h1 : T1 ≤ l1d.confidence
        · simp [route_request, h1]
        · simp [route_request, h1, l2Phase, hnT2]
      | error e1 => simp [route_request, l2Phase, hnT2]

/-- Witness for C5 at the default thresholds. -/
theorem c5_witness :
    (route_request 0.85 0.75
        ⟨Except.error (), Except.ok ⟨"unifi", 0.9⟩, Except.error ()⟩
        ⟨"wifi clients", none⟩ =
      route_request 0.85 0.75
        ⟨Except.ok none, Except.ok ⟨"unifi", 0.9⟩, Except.error ()⟩
        ⟨"wifi clients", none⟩) ∧
    (route_request 0.85 0.75
        ⟨Except.ok none, Except.error (), Except.error ()⟩
        ⟨"wifi clients", none⟩ =
      route_request 0.85 0.75
        ⟨Except.ok none, Except.ok ⟨"unifi", 0⟩, Except.error ()⟩
        ⟨"wifi clients", none⟩) := by
  have h := c5_fault_absorption 0.85 0.75 ⟨"wifi clients", none⟩
    (Except.ok none) (Except.ok ⟨"unifi", 0.9⟩) (Except.error ())
    "unifi" "unifi" (by norm_num) (by norm_num)
  have h2 := c5_fault_absorption 0.85 0.75 ⟨"wifi clients", none⟩
    (Except.ok none) (Except.ok ⟨"unifi", 0.9⟩) (Except.error ())
    "unifi" "unifi" (by norm_num) (by norm_num)
  exact ⟨h.1, h2.2.1⟩

/-- C9: if a request's confident decision scheduled a cache write whose
entry is warm when the identical message arrives again, the second
outcome returns the same route and confidence with `cached = true`, the
entry sits under the message's cache key, and neither classifier is
invoked the second time. -/
theorem c9_warm_cache_idempotent (T1 T2 : ℚ) (o1 o2 : Oracle)
    (req : RouteRequest) (k : String) (v : CacheValue)
    (h1 : (route_request T1 T2 o1 req).write = some (k, v))
    (h2 : o2.cacheLookup = .ok (some v)) :
    k = cacheKey req.message ∧
    (route_request T1 T2 o2 req).resp.route =
      (route_request T1 T2 o1 req).resp.route ∧
    (route_request T1 T2 o2 req).resp.confidence =
      (route_request T1 T2 o1 req).resp.confidence ∧
    (route_request T1 T2 o2 req).resp.cached = true ∧
    (route_request T1 T2 o2 req).l1_calls = 0 ∧
    (route_request T1 T2 o2 req).l2_calls = 0 := by
  obtain ⟨hk, hv⟩ := write_characterization T1 T2 o1 req k v h1
  obtain ⟨cl2, l1b, l2b⟩ := o2
  simp only at h2
  subst h2
  subst hv
  exact ⟨hk, rfl, rfl, rfl, rfl, rfl⟩

/-- Witness for C9: an L1-confident `k3s` decision re-served from the
warm cache. -/
theorem c9_witness :
    cacheKey "list my pods" = cacheKey "list my pods" ∧
    (route_request 0.85 0.75
      ⟨Except.ok (some ⟨"k3s", "http://k3s-mcp.mcp-servers.svc:8000", 0.9, "L1"⟩),
       Except.error (), Except.error ()⟩
      ⟨"list my pods", none⟩).resp.route =
      (route_request 0.85 0.75
        ⟨Except.ok none, Except.ok ⟨"k3s", 0.9⟩, Except.error ()⟩
        ⟨"list my pods", none⟩).resp.route ∧
    (route_request 0.85 0.75
      ⟨Except.ok (some ⟨"k3s", "http://k3s-mcp.mcp-servers.svc:8000", 0.9, "L1"⟩),
       Except.error (), Except.error ()⟩
      ⟨"list my pods", none⟩).resp.confidence =
      (route_request 0.85 0.75
        ⟨Except.ok none, Except.ok ⟨"k3s", 0.9⟩, Except.error ()⟩
        ⟨"list my pods", none⟩).resp.confidence ∧
    (route_request 0.85 0.75
      ⟨Except.ok (some ⟨"k3s", "http://k3s-mcp.mcp-servers.svc:8000", 0.9, "L1"⟩),
       Except.error (), Except.error ()⟩
      ⟨"list my pods", none⟩).resp.cached = true ∧
    (route_request 0.85 0.75
      ⟨Except.ok (some ⟨"k3s", "http://k3s-mcp.mcp-servers.svc:8000", 0.9, "L1"⟩),
       Except.error (), Except.error ()⟩
      ⟨"list my pods", none⟩).l1_calls = 0 ∧
    (route_request 0.85 0.75
      ⟨Except.ok (some ⟨"k3s", "http://k3s-mcp.mcp-servers.svc:8000", 0.9, "L1"⟩),
       Except.error (), Except.error ()⟩
      ⟨"list my pods", none⟩).l2_calls = 0 := by
  exact c9_warm_cache_idempotent 0.85 0.75
    ⟨Except.ok none, Except.ok ⟨"k3s", 0.9⟩, Except.error ()⟩
    ⟨Except.ok (some ⟨"k3s", "http://k3s-mcp.mcp-servers.svc:8000", 0.9, "L1"⟩),
     Except.error (), Except.error ()⟩
    ⟨"list my pods", none⟩
    (cacheKey "list my pods")
    ⟨"k3s", "http://k3s-mcp.mcp-servers.svc:8000", 0.9, "L1"⟩
    (by norm_num [route_request, routesGet, ROUTES, toCacheValue]; decide)
    rfl

/-- C10: the optional `context` field of the request has no effect —
with the same message, cache and classifier state, the whole outcome
(response, scheduled cache write and its key, call counts) is
identical for any two context values. -/
theorem c10_context_irrelevant (T1 T2 : ℚ) (o : Oracle) (m : String)
    (ctx1 ctx2 : Option (List (String × String))) :
    route_request T1 T2 o ⟨m, ctx1⟩ = route_request T1 T2 o ⟨m, ctx2⟩ := rfl

end Orchestrator

namespace ModelServer

/-- C6: `classify` never returns an error to its caller — when the
model failed to load, and when the inference call raises, the result is
the fallback label `cortex` with confidence 0.0 (for every input and
every model of `math.exp`); by construction `classify` is a total
function into `ClassifyResponse`, so no error is ever surfaced. -/
theorem c6_classify_never_errors :
    (∀ (expFn : ℚ → ℚ) (infer : Except Unit LlamaChoice),
      classify expFn false infer = ⟨"cortex", 0⟩) ∧
    (∀ (expFn : ℚ → ℚ) (loaded : Bool),
      classify expFn loaded (Except.error ()) = ⟨"cortex", 0⟩) := by
  constructor
  · intro expFn infer
    rfl
  · intro expFn loaded
    cases loaded <;> rfl

/-- C7 counterexample: the model emits `banana` — containing no known
route label — with no logprobs, and `classify` returns confidence 1/2,
not 0.0, alongside the fallback label. -/
theorem c7_counterexample :
    (classify (fun q => q) true (Except.ok ⟨"banana", []⟩)).route = "cortex" ∧
    (classify (fun q => q) true (Except.ok ⟨"banana", []⟩)).confidence = 1 / 2 ∧
    ¬ (classify (fun q => q) true (Except.ok ⟨"banana", []⟩)).confidence = 0 := by
  refine ⟨rfl, ?_, ?_⟩ <;> norm_num [classify, matchRoute, normalizeRaw]

/-- C7 amended: when the model's emitted text contains no known route
label, `classify` substitutes the fallback label `cortex`, but keeps
the ordinary logprob-derived confidence — `exp` of the first token
logprob clipped to 1 when logprobs are present, 1/2 when they are
absent — rather than forcing it to 0.0. -/
theorem c7_unknown_label_fallback (expFn : ℚ → ℚ) (out : LlamaChoice)
    (hnolabel : ∀ r ∈ ROUTES, containsSub r.data (normalizeRaw out.text) = false) :
    (classify expFn true (Except.ok out)).route = "cortex" ∧
    (out.token_logprobs = [] →
      (classify expFn true (Except.ok out)).confidence = 1 / 2) ∧
    (∀ lp rest, out.token_logprobs = some lp :: rest →
      (classify expFn true (Except.ok out)).confidence = min (expFn lp) 1) := by
  have hfind : ROUTES.find? (fun r => containsSub r.data (normalizeRaw out.text)) = none := by
    rw [List.find?_eq_none]
    intro r hr
    simp [hnolabel r hr]
  refine ⟨?_, ?_, ?_⟩
  · show matchRoute (normalizeRaw out.text) = "cortex"
    rw [matchRoute, hfind]
    rfl
  · intro hlp
    norm_num [classify, hlp]
  · intro lp rest hlp
    simp [classify, hlp]

/-- Witness for the amended C7 at the `banana` emission. -/
theorem c7_witness :
    (classify (fun q => q) true (Except.ok ⟨"banana", []⟩)).route = "cortex" ∧
    (classify (fun q => q) true (Except.ok ⟨"banana", []⟩)).confidence = 1 / 2 := by
  have h := c7_unknown_label_fallback (fun q => q) ⟨"banana", []⟩ (by decide)
  exact ⟨h.1, h.2.1 rfl⟩

end ModelServer

namespace Orchestrator

/-- C8 counterexample: two messages differing only in letter case map
to different cache keys — the key is a hash of the raw text, with no
case folding. -/
theorem c8_counterexample : cacheKey "Hi" ≠ cacheKey "hi" := by decide

/-- C8 amended: the cache key is `route:` plus the first 16 hex
characters of the SHA-256 digest of the raw UTF-8 message bytes, with
no normalization; messages differing only in surrounding whitespace or
letter case map to different keys (shown on concrete pairs). -/
theorem c8_raw_hash_key :
    (∀ m : String, cacheKey m =
      "route:" ++ String.mk ((SHA256.sha256hexChars (SHA256.utf8Bytes m)).take 16)) ∧
    cacheKey "hi " ≠ cacheKey "hi" ∧
    cacheKey " hi" ≠ cacheKey "hi" := by
  refine ⟨fun m => rfl, ?_, ?_⟩ <;> decide

end Orchestrator
